import Mathlib

/-!
Verification of the Wayland highgui backend (`window_wayland.cpp`).

Shallow embedding of the backend's pure logic: the pixel-format
conversion, the keyboard key queue, the double-buffering scheduler,
the window registry maps, the mouse focus tracking, the readiness
multiplexer and the event-loop step.  Machine integers are modelled as
`Nat` with explicit truncation where the C code truncates; fallible
paths (null-pointer dereference, empty-queue access) return `Option`.
-/

namespace WlHighgui

/-! ## Pixel conversion (`draw_argb8888`, `write_mat_to_xrgb8888`) -/

/-- The source image header: `rows`, `cols`, row stride `step` (bytes) and
the raw byte data (`data.ptr` in the C code), 3 interleaved 8-bit
channels per pixel in row-major order. -/
structure CvMat where
  rows : Nat
  cols : Nat
  step : Nat
  data : List Nat

/-- Reading byte `i` of `mat->data.ptr`. -/
def byteAt (mat : CvMat) (i : Nat) : Nat := mat.data.getD i 0

/-- `draw_argb8888`: stores `(a << 24) | (r << 16) | (g << 8) | b` as a
32-bit word.  The `uint8_t` parameters truncate their arguments mod 256. -/
def draw_argb8888 (a r g b : Nat) : Nat :=
  ((a % 256) <<< 24) ||| ((r % 256) <<< 16) ||| ((g % 256) <<< 8) ||| (b % 256)

/-- The 32-bit word `write_mat_to_xrgb8888` writes at pixel `(y, x)`
(at byte offset `(y * cols + x) * 4` of the destination):
`p[0] = data[step*y + x*3]`, `p[1] = ..+1`, `p[2] = ..+2`, then
`draw_argb8888(dst, 0x00, p[2], p[1], p[0])`. -/
def write_mat_to_xrgb8888_px (mat : CvMat) (y x : Nat) : Nat :=
  draw_argb8888 0
    (byteAt mat (mat.step * y + x * 3 + 2))
    (byteAt mat (mat.step * y + x * 3 + 1))
    (byteAt mat (mat.step * y + x * 3))

/-- The whole destination buffer written by `write_mat_to_xrgb8888`, as
the list of 32-bit words at linear pixel indices `i = y * cols + x`. -/
def write_mat_to_xrgb8888 (mat : CvMat) : List Nat :=
  (List.range (mat.rows * mat.cols)).map
    (fun i => write_mat_to_xrgb8888_px mat (i / mat.cols) (i % mat.cols))

/-- Packing helper: or-ing a left-shifted value with a value below the
shifted-in range is addition. -/
theorem lor_shiftLeft_eq_add (hi lo k : Nat) (h : lo < 2 ^ k) :
    (hi <<< k) ||| lo = hi * 2 ^ k + lo := by
  apply Nat.eq_of_testBit_eq
  intro j
  rw [Nat.testBit_or, Nat.testBit_shiftLeft, Nat.mul_comm hi (2 ^ k),
    Nat.testBit_mul_pow_two_add hi h j]
  by_cases hj : j < k
  · have hge : ¬ (j ≥ k) := Nat.not_le_of_lt hj
    simp [hj, hge]
  · have hk : k ≤ j := Nat.le_of_not_lt hj
    have hlo : lo < 2 ^ j :=
      Nat.lt_of_lt_of_le h (Nat.pow_le_pow_right (by omega) hk)
    simp [hj, hk, Nat.testBit_lt_two_pow hlo]

/-- `draw_argb8888` on in-range bytes packs them arithmetically. -/
theorem draw_argb8888_eq_pack (a r g b : Nat)
    (ha : a < 256) (hr : r < 256) (hg : g < 256) (hb : b < 256) :
    draw_argb8888 a r g b = a * 2 ^ 24 + r * 2 ^ 16 + g * 2 ^ 8 + b := by
  unfold draw_argb8888
  rw [Nat.mod_eq_of_lt ha, Nat.mod_eq_of_lt hr, Nat.mod_eq_of_lt hg,
    Nat.mod_eq_of_lt hb]
  have h1 : (a <<< 24) ||| (r <<< 16) = (a * 2 ^ 8 + r) <<< 16 := by
    rw [lor_shiftLeft_eq_add a (r <<< 16) 24 (by rw [Nat.shiftLeft_eq]; omega)]
    simp only [Nat.shiftLeft_eq]
    ring
  have h2 : ((a * 2 ^ 8 + r) <<< 16) ||| (g <<< 8) =
      ((a * 2 ^ 8 + r) * 2 ^ 8 + g) <<< 8 := by
    rw [lor_shiftLeft_eq_add _ (g <<< 8) 16 (by rw [Nat.shiftLeft_eq]; omega)]
    simp only [Nat.shiftLeft_eq]
    ring
  calc ((a <<< 24) ||| (r <<< 16)) ||| (g <<< 8) ||| b
      = (((a * 2 ^ 8 + r) <<< 16) ||| (g <<< 8)) ||| b := by rw [h1]
    _ = (((a * 2 ^ 8 + r) * 2 ^ 8 + g) <<< 8) ||| b := by rw [h2]
    _ = ((a * 2 ^ 8 + r) * 2 ^ 8 + g) * 2 ^ 8 + b :=
        lor_shiftLeft_eq_add _ b 8 hb
    _ = a * 2 ^ 24 + r * 2 ^ 16 + g * 2 ^ 8 + b := by ring

/-- Indexing the produced buffer at pixel `(y, x)`. -/
theorem write_mat_px_at (mat : CvMat) (y x : Nat)
    (hy : y < mat.rows) (hx : x < mat.cols) :
    (write_mat_to_xrgb8888 mat).getD (y * mat.cols + x) 0 =
      write_mat_to_xrgb8888_px mat y x := by
  have hc : 0 < mat.cols := Nat.pos_of_ne_zero (by omega)
  have hi : y * mat.cols + x < mat.rows * mat.cols := by
    calc y * mat.cols + x < (y + 1) * mat.cols := by
          rw [Nat.succ_mul]; omega
    _ ≤ mat.rows * mat.cols := Nat.mul_le_mul_right _ hy
  have hdiv : (y * mat.cols + x) / mat.cols = y := by
    rw [Nat.mul_comm y mat.cols, Nat.mul_add_div hc, Nat.div_eq_of_lt hx]
    omega
  have hmod : (y * mat.cols + x) % mat.cols = x := by
    rw [Nat.mul_comm y mat.cols, Nat.mul_add_mod, Nat.mod_eq_of_lt hx]
  unfold write_mat_to_xrgb8888
  rw [List.getD_eq_getElem?_getD, List.getElem?_map, List.getElem?_range hi]
  simp [hdiv, hmod]

/-- C1: for a source with 3 interleaved 8-bit channels (row stride
`step`), the conversion in `show_image` writes at each pixel the 4-byte
word with alpha byte 0 and channels reordered to
`(0 << 24) | (R << 16) | (G << 8) | B`, every channel value preserved
exactly; a 1x1 pixel `(B, G, R) = (10, 20, 30)` yields `0x001E140A`
(see the witness). -/
theorem claim_C1_pixel_conversion (mat : CvMat) (y x B G R : Nat)
    (hy : y < mat.rows) (hx : x < mat.cols)
    (hB : byteAt mat (mat.step * y + x * 3) = B)
    (hG : byteAt mat (mat.step * y + x * 3 + 1) = G)
    (hR : byteAt mat (mat.step * y + x * 3 + 2) = R)
    (hBlt : B < 256) (hGlt : G < 256) (hRlt : R < 256) :
    (write_mat_to_xrgb8888 mat).getD (y * mat.cols + x) 0 =
      0 * 2 ^ 24 + R * 2 ^ 16 + G * 2 ^ 8 + B ∧
    (write_mat_to_xrgb8888 mat).getD (y * mat.cols + x) 0 / 2 ^ 24 = 0 ∧
    (write_mat_to_xrgb8888 mat).getD (y * mat.cols + x) 0 % 2 ^ 8 = B ∧
    (write_mat_to_xrgb8888 mat).getD (y * mat.cols + x) 0 / 2 ^ 8 % 2 ^ 8 = G ∧
    (write_mat_to_xrgb8888 mat).getD (y * mat.cols + x) 0 / 2 ^ 16 % 2 ^ 8 = R := by
  have hpx : (write_mat_to_xrgb8888 mat).getD (y * mat.cols + x) 0 =
      0 * 2 ^ 24 + R * 2 ^ 16 + G * 2 ^ 8 + B := by
    rw [write_mat_px_at mat y x hy hx]
    unfold write_mat_to_xrgb8888_px
    rw [hB, hG, hR]
    exact draw_argb8888_eq_pack 0 R G B (by omega) hRlt hGlt hBlt
  refine ⟨hpx, ?_, ?_, ?_, ?_⟩ <;> rw [hpx] <;> omega

/-- C1 witness: the 1x1 source pixel `(B, G, R) = (10, 20, 30)` produces
exactly the packed word `0x001E140A`. -/
theorem claim_C1_pixel_conversion_witness :
    (write_mat_to_xrgb8888 ⟨1, 1, 3, [10, 20, 30]⟩).getD (0 * 1 + 0) 0 =
      0 * 2 ^ 24 + 30 * 2 ^ 16 + 20 * 2 ^ 8 + 10 ∧
    (0 * 2 ^ 24 + 30 * 2 ^ 16 + 20 * 2 ^ 8 + 10 : Nat) = 0x001E140A :=
  ⟨(claim_C1_pixel_conversion ⟨1, 1, 3, [10, 20, 30]⟩ 0 0 10 20 30
      (by decide) (by decide) (by decide) (by decide) (by decide)
      (by decide) (by decide) (by decide)).1,
    by decide⟩

/-! ## Keyboard (`cv_wl_keyboard`) -/

/-- `WL_KEYBOARD_KEY_STATE_RELEASED` (wayland protocol value 0). -/
def WL_KEYBOARD_KEY_STATE_RELEASED : Nat := 0

/-- `WL_KEYBOARD_KEY_STATE_PRESSED` (wayland protocol value 1). -/
def WL_KEYBOARD_KEY_STATE_PRESSED : Nat := 1

/-- `WL_KEYBOARD_KEYMAP_FORMAT_XKB_V1` (wayland protocol value 1). -/
def WL_KEYBOARD_KEYMAP_FORMAT_XKB_V1 : Nat := 1

/-- `xkb_keysym_to_ascii`: `static_cast<uint8_t>(keysym)` keeps the low
8 bits. -/
def xkb_keysym_to_ascii (keysym : Nat) : Int := Int.ofNat (keysym % 256)

/-- `xkb_keycode_from_raw_keycode`: raw keycode + 8. -/
def xkb_keycode_from_raw_keycode (raw : Nat) : Nat := raw + 8

/-- The keyboard state of `cv_wl_keyboard`.  The opaque
`xkb_.state` pointer is modelled as an optional translation function
(keycode to keysym), the single operation the code performs on it
(`xkb_state_key_get_one_sym`); `none` is the null pointer.
`xkb_keymap_set` records whether the `xkb_.keymap` field holds a
non-null pointer.  `key_queue_` pushes at the back. -/
structure KbState where
  xkb_keymap_set : Bool
  xkb_state : Option (Nat → Nat)
  key_queue_ : List Int

/-- A freshly constructed `cv_wl_keyboard`: null keymap, null state,
empty queue. -/
def kb_init : KbState := ⟨false, none, []⟩

/-- `cv_wl_keyboard::get_key`: returns `key_queue_.back()` (the most
recently pushed code) or -1 when empty, then unconditionally clears the
queue (`container_clear`). -/
def get_key (kb : KbState) : Int × KbState :=
  ((kb.key_queue_.getLast?).getD (-1), { kb with key_queue_ := [] })

/-- `cv_wl_keyboard::handle_kb_key`: on a released key, translate
`key + 8` through `xkb_state_key_get_one_sym(xkb_.state, ..)` and push
the low byte.  The call does not guard `xkb_.state`: with a null state
the library dereferences it, modelled as `none` (crash).  Non-release
events do nothing. -/
def handle_kb_key (kb : KbState) (key : Nat) (state : Nat) : Option KbState :=
  if state = WL_KEYBOARD_KEY_STATE_RELEASED then
    match kb.xkb_state with
    | none => none
    | some sym =>
      some { kb with key_queue_ := kb.key_queue_ ++
        [xkb_keysym_to_ascii (sym (xkb_keycode_from_raw_keycode key))] }
  else
    some kb

/-- `cv_wl_keyboard::handle_kb_keymap`.  External effects are inputs:
`mmap_ok` is whether `mmap` succeeded, `compiled` is the result of
`xkb_keymap_new_from_string` (the keymap abstracted as the translation
its state performs), `state_ok` is whether `xkb_state_new` succeeded.
On an unrecognized format or a failed `mmap` the handler returns
untouched; on compile failure the keymap field is assigned null; when
state creation fails the keymap stays assigned (it was unreferenced but
the field is not cleared) and no usable state is installed. -/
def handle_kb_keymap (kb : KbState) (format : Nat) (mmap_ok : Bool)
    (compiled : Option (Nat → Nat)) (state_ok : Bool) : KbState :=
  if format ≠ WL_KEYBOARD_KEYMAP_FORMAT_XKB_V1 then kb
  else if mmap_ok = false then kb
  else
    match compiled with
    | none => { kb with xkb_keymap_set := false }
    | some sym =>
      if state_ok = false then { kb with xkb_keymap_set := true }
      else { kb with xkb_keymap_set := true, xkb_state := some sym }

/-- C2: only key-release events enqueue a code; `get_key` returns the
most recently enqueued code (or -1 when empty) and unconditionally
empties the queue; two consecutive `get_key` calls with no intervening
events return -1 twice; after releases for codes A then B, the first
`get_key` returns the code enqueued for B and the second returns -1. -/
theorem claim_C2_key_queue (kb : KbState) (sym : Nat → Nat) (A B : Nat)
    (hstate : kb.xkb_state = some sym) (hq : kb.key_queue_ = []) :
    (∀ kb' k s, s ≠ WL_KEYBOARD_KEY_STATE_RELEASED →
      handle_kb_key kb' k s = some kb') ∧
    (∀ kb' : KbState, ((get_key kb').2).key_queue_ = []) ∧
    (∀ kb' : KbState, kb'.key_queue_ = [] → (get_key kb').1 = -1) ∧
    (∀ (kb' : KbState) (q : List Int) (c : Int),
      kb'.key_queue_ = q ++ [c] → (get_key kb').1 = c) ∧
    ((get_key kb).1 = -1 ∧ (get_key (get_key kb).2).1 = -1) ∧
    (∃ kb1 kb2,
      handle_kb_key kb A WL_KEYBOARD_KEY_STATE_RELEASED = some kb1 ∧
      handle_kb_key kb1 B WL_KEYBOARD_KEY_STATE_RELEASED = some kb2 ∧
      (get_key kb2).1 =
        xkb_keysym_to_ascii (sym (xkb_keycode_from_raw_keycode B)) ∧
      (get_key (get_key kb2).2).1 = -1) := by
  refine ⟨?_, ?_, ?_, ?_, ⟨?_, ?_⟩, ?_⟩
  · intro kb' k s hs
    simp [handle_kb_key, hs]
  · intro kb'
    simp [get_key]
  · intro kb' hq'
    simp [get_key, hq']
  · intro kb' q c hq'
    simp [get_key, hq']
  · simp [get_key, hq]
  · simp [get_key, hq]
  · refine ⟨{ kb with key_queue_ := kb.key_queue_ ++
        [xkb_keysym_to_ascii (sym (xkb_keycode_from_raw_keycode A))] },
      { kb with key_queue_ := (kb.key_queue_ ++
          [xkb_keysym_to_ascii (sym (xkb_keycode_from_raw_keycode A))]) ++
        [xkb_keysym_to_ascii (sym (xkb_keycode_from_raw_keycode B))] },
      ?_, ?_, ?_, ?_⟩
    · simp [handle_kb_key, WL_KEYBOARD_KEY_STATE_RELEASED, hstate]
    · simp [handle_kb_key, WL_KEYBOARD_KEY_STATE_RELEASED, hstate]
    · simp [get_key, hq]
    · simp [get_key]

/-- C2 witness: a keyboard with a usable layout (identity translation)
and an empty queue, with release codes A = 65 and B = 66. -/
theorem claim_C2_key_queue_witness :
    (kb_init.xkb_state = none) ∧
    (∃ kb1 kb2,
      handle_kb_key ⟨true, some (fun n => n), []⟩ 65
          WL_KEYBOARD_KEY_STATE_RELEASED = some kb1 ∧
      handle_kb_key kb1 66 WL_KEYBOARD_KEY_STATE_RELEASED = some kb2 ∧
      (get_key kb2).1 =
        xkb_keysym_to_ascii ((fun n => n) (xkb_keycode_from_raw_keycode 66)) ∧
      (get_key (get_key kb2).2).1 = -1) :=
  ⟨rfl,
    (claim_C2_key_queue ⟨true, some (fun n => n), []⟩ (fun n => n) 65 66
      rfl rfl).2.2.2.2.2⟩

/-- C8: after a failed keymap (unrecognized format, compile failure or
state-creation failure) the keyboard is left with no usable layout
(`xkb_state` stays null); but a subsequent key release is NOT inert:
`handle_kb_key` passes the null state to the keysym lookup, a
null-pointer dereference (modelled as `none`), instead of neither
crashing nor enqueueing. -/
theorem claim_C8_degraded_keyboard_crash :
    (handle_kb_keymap kb_init 0 true (some (fun n => n)) true = kb_init) ∧
    ((handle_kb_keymap kb_init WL_KEYBOARD_KEYMAP_FORMAT_XKB_V1 false
        (some (fun n => n)) true).xkb_state = none) ∧
    ((handle_kb_keymap kb_init WL_KEYBOARD_KEYMAP_FORMAT_XKB_V1 true
        none true).xkb_state = none) ∧
    ((handle_kb_keymap kb_init WL_KEYBOARD_KEYMAP_FORMAT_XKB_V1 true
        (some (fun n => n)) false).xkb_state = none) ∧
    (handle_kb_key kb_init 42 WL_KEYBOARD_KEY_STATE_RELEASED = none) := by
  refine ⟨?_, rfl, rfl, rfl, rfl⟩
  simp [handle_kb_keymap, WL_KEYBOARD_KEYMAP_FORMAT_XKB_V1, kb_init]

/-! ## Shared-memory buffers and `cv_wl_window::next_buffer` -/

/-- `WL_SHM_FORMAT_XRGB8888` (wayland protocol value 1). -/
def WL_SHM_FORMAT_XRGB8888 : Nat := 1

/-- One `cv_wl_buffer`: the busy flag, whether `buffer` is non-null,
the recorded width/height, and the mapped `shm_data` bytes as a
function from byte offset to byte value. -/
structure WlBuffer where
  busy_ : Bool
  has_buffer : Bool
  width_ : Nat
  height_ : Nat
  shm_data : Nat → Nat

/-- `cv_wl_buffer::create_shm`: destroys the old backing, records the
new width/height and maps a fresh (zero-filled) shared-memory region of
`width * height * 4` bytes; the compositor-side objects are outside the
model.  Returns 0 (failures throw in the C code). -/
def create_shm (b : WlBuffer) (width height : Nat) (_format : Nat) : WlBuffer :=
  { b with
    has_buffer := true,
    width_ := width,
    height_ := height,
    shm_data := fun _ => 0 }

/-- A window's buffer-relevant state: current `width_`/`height_` and
the two buffers of `buffers_[2]`. -/
structure WinState where
  width_ : Nat
  height_ : Nat
  buf0 : WlBuffer
  buf1 : WlBuffer

/-- One iteration of the selection loop in `next_buffer`: after the
round-trip, take `buffers_[0]` if it is not busy, else `buffers_[1]` if
it is not busy; `none` means both were busy and the loop round-trips
again. -/
def select_buffer (w : WinState) : Option (Fin 2) :=
  if w.buf0.busy_ = false then some 0
  else if w.buf1.busy_ = false then some 1
  else none

/-- The buffer `buffers_[i]`. -/
def buffer_at (w : WinState) (i : Fin 2) : WlBuffer :=
  if i = 0 then w.buf0 else w.buf1

/-- The size-check-and-recreate step of `next_buffer`: if the selected
buffer has no backing (`!buffer->buffer`) or its width or height
differs from the window's, recreate it at the window's size and
`memset` the whole `width_ * height_ * 4` bytes to `0xff`. -/
def refresh_buffer (w : WinState) (b : WlBuffer) : WlBuffer :=
  if b.has_buffer = false ∨ b.width_ ≠ w.width_ ∨ b.height_ ≠ w.height_ then
    let b' := create_shm b w.width_ w.height_ WL_SHM_FORMAT_XRGB8888
    { b' with shm_data := fun i =>
        if i < w.width_ * w.height_ * 4 then 0xff else b'.shm_data i }
  else b

/-- `cv_wl_window::next_buffer` on one pass of its loop: the selected
index and the (possibly recreated) buffer, or `none` when both buffers
are busy and the loop keeps round-tripping. -/
def next_buffer (w : WinState) : Option (Fin 2 × WlBuffer) :=
  match select_buffer w with
  | none => none
  | some i => some (i, refresh_buffer w (buffer_at w i))

/-- C3: whenever at least one of the two buffers is not busy,
`next_buffer` returns a buffer and never a busy one, choosing buffer 0
when it is non-busy and buffer 1 otherwise; and when the chosen
buffer's backing is absent or sized differently from the window, the
returned buffer is recreated at the window's size with every byte of
the backing store set to the maximum intensity value 255. -/
theorem claim_C3_next_buffer (w : WinState)
    (h : w.buf0.busy_ = false ∨ w.buf1.busy_ = false) :
    ∃ i b, next_buffer w = some (i, b) ∧
      (buffer_at w i).busy_ = false ∧
      b.busy_ = false ∧
      (w.buf0.busy_ = false → i = 0) ∧
      (w.buf0.busy_ = true → i = 1 ∧ w.buf1.busy_ = false) ∧
      b.has_buffer = true ∧ b.width_ = w.width_ ∧ b.height_ = w.height_ ∧
      ((buffer_at w i).has_buffer = false ∨ (buffer_at w i).width_ ≠ w.width_ ∨
          (buffer_at w i).height_ ≠ w.height_ →
        ∀ j, j < w.width_ * w.height_ * 4 → b.shm_data j = 255) := by
  by_cases h0 : w.buf0.busy_ = false
  · refine ⟨0, refresh_buffer w (buffer_at w 0), ?_, ?_, ?_, ?_, ?_, ?_⟩
    · simp [next_buffer, select_buffer, h0]
    · simpa [buffer_at] using h0
    · unfold refresh_buffer create_shm
      split
      · simpa [buffer_at] using h0
      · simpa [buffer_at] using h0
    · exact fun _ => rfl
    · intro h0t
      rw [h0] at h0t
      exact absurd h0t (by simp)
    · unfold refresh_buffer create_shm
      split
      · refine ⟨rfl, rfl, rfl, fun _ j hj => ?_⟩
        simp [hj]
      · rename_i hcond
        push_neg at hcond
        exact ⟨by simpa using hcond.1, hcond.2.1, hcond.2.2,
          fun hc => absurd hc (by push_neg; exact ⟨hcond.1, hcond.2.1, hcond.2.2⟩)⟩
  · have h1 : w.buf1.busy_ = false := by
      rcases h with h | h
      · exact absurd h h0
      · exact h
    refine ⟨1, refresh_buffer w (buffer_at w 1), ?_, ?_, ?_, ?_, ?_, ?_⟩
    · simp [next_buffer, select_buffer, h0, h1]
    · simpa [buffer_at] using h1
    · unfold refresh_buffer create_shm
      split
      · simpa [buffer_at] using h1
      · simpa [buffer_at] using h1
    · intro hf
      exact absurd hf h0
    · exact fun _ => ⟨rfl, h1⟩
    · unfold refresh_buffer create_shm
      split
      · refine ⟨rfl, rfl, rfl, fun _ j hj => ?_⟩
        simp [hj]
      · rename_i hcond
        push_neg at hcond
        exact ⟨by simpa using hcond.1, hcond.2.1, hcond.2.2,
          fun hc => absurd hc (by push_neg; exact ⟨hcond.1, hcond.2.1, hcond.2.2⟩)⟩

/-- C3 witness: a window of size 2x2 whose buffer 0 is busy and whose
buffer 1 is free with a stale 1x1 backing. -/
theorem claim_C3_next_buffer_witness :
    ∃ i b,
      next_buffer ⟨2, 2, ⟨true, true, 2, 2, fun _ => 0⟩,
          ⟨false, true, 1, 1, fun _ => 0⟩⟩ = some (i, b) ∧
      (buffer_at ⟨2, 2, ⟨true, true, 2, 2, fun _ => 0⟩,
          ⟨false, true, 1, 1, fun _ => 0⟩⟩ i).busy_ = false ∧
      b.busy_ = false ∧
      ((⟨true, true, 2, 2, fun _ => 0⟩ : WlBuffer).busy_ = false → i = 0) ∧
      ((⟨true, true, 2, 2, fun _ => 0⟩ : WlBuffer).busy_ = true →
        i = 1 ∧ (⟨false, true, 1, 1, fun _ => 0⟩ : WlBuffer).busy_ = false) ∧
      b.has_buffer = true ∧ b.width_ = 2 ∧ b.height_ = 2 ∧
      ((buffer_at ⟨2, 2, ⟨true, true, 2, 2, fun _ => 0⟩,
            ⟨false, true, 1, 1, fun _ => 0⟩⟩ i).has_buffer = false ∨
        (buffer_at ⟨2, 2, ⟨true, true, 2, 2, fun _ => 0⟩,
            ⟨false, true, 1, 1, fun _ => 0⟩⟩ i).width_ ≠ 2 ∨
        (buffer_at ⟨2, 2, ⟨true, true, 2, 2, fun _ => 0⟩,
            ⟨false, true, 1, 1, fun _ => 0⟩⟩ i).height_ ≠ 2 →
        ∀ j, j < 2 * 2 * 4 → b.shm_data j = 255) :=
  claim_C3_next_buffer ⟨2, 2, ⟨true, true, 2, 2, fun _ => 0⟩,
    ⟨false, true, 1, 1, fun _ => 0⟩⟩ (Or.inr rfl)

/-! ## Core registry (`cv_wl_core`)

`std::map` is modelled as an association list with unique keys.
`cv_wl_window` identity (its address, the native handle) is modelled by
a fresh numeric id allocated at construction. -/

/-- Lookup in an association list (`std::map::find`). -/
def alist_lookup {α β : Type} [DecidableEq α] : List (α × β) → α → Option β
  | [], _ => none
  | (k, v) :: rest, a => if k = a then some v else alist_lookup rest a

/-- `std::map::erase(key)`: removes the entry for the key if present. -/
def alist_erase {α β : Type} [DecidableEq α] : List (α × β) → α → List (α × β)
  | [], _ => []
  | (k, v) :: rest, a =>
    if k = a then rest else (k, v) :: alist_erase rest a

/-- `std::map::insert`: inserts only when the key is absent; the Bool
is `result.second` (whether insertion took place). -/
def alist_insert {α β : Type} [DecidableEq α]
    (l : List (α × β)) (k : α) (v : β) : List (α × β) × Bool :=
  match alist_lookup l k with
  | some _ => (l, false)
  | none => (l ++ [(k, v)], true)

/-- `std::map::operator[] = v`: overwrites if present, inserts if
absent. -/
def alist_set {α β : Type} [DecidableEq α]
    (l : List (α × β)) (k : α) (v : β) : List (α × β) :=
  match alist_lookup l k with
  | some _ => l.map (fun p => if p.1 = k then (k, v) else p)
  | none => l ++ [(k, v)]

/-- The registry state of `cv_wl_core`: `windows_` (name to window,
the window represented by its id) and `handles_` (window address to
name), plus the id allocator modelling `make_shared` addresses. -/
structure CoreState where
  windows_ : List (String × Nat)
  handles_ : List (Nat × String)
  next_id : Nat

/-- The freshly initialized registry. -/
def core_init : CoreState := ⟨[], [], 0⟩

/-- `cv_wl_core::create_window`: constructs a window (fresh id),
attempts `windows_.insert({name, window})`, then unconditionally sets
`handles_[window.get()] = window->name()`; returns `result.second`. -/
def create_window (s : CoreState) (name : String) (_flags : Int) :
    CoreState × Bool :=
  let id := s.next_id
  let (ws, inserted) := alist_insert s.windows_ name id
  ({ windows_ := ws,
     handles_ := alist_set s.handles_ id name,
     next_id := id + 1 }, inserted)

/-- `cv_wl_core::destroy_window`: `windows_.erase(name)`; returns
whether an entry was erased. -/
def destroy_window (s : CoreState) (name : String) : CoreState × Bool :=
  ({ s with windows_ := alist_erase s.windows_ name },
    (alist_lookup s.windows_ name).isSome)

/-- `cv_wl_core::destroy_all_windows`: `windows_.clear()`. -/
def destroy_all_windows (s : CoreState) : CoreState :=
  { s with windows_ := [] }

/-- `cv_wl_core::get_window_name`: `handles_[handle]` — `operator[]`
default-inserts an empty string for an unknown handle and returns it. -/
def get_window_name (s : CoreState) (handle : Nat) : String × CoreState :=
  match alist_lookup s.handles_ handle with
  | some n => (n, s)
  | none => ("", { s with handles_ := s.handles_ ++ [(handle, "")] })

/-- The consistency invariant claimed for the registry: a handle entry
exists iff the window it refers to exists in the name map (with
matching identity), and conversely. -/
def registry_consistent (s : CoreState) : Prop :=
  (∀ p ∈ s.handles_, alist_lookup s.windows_ p.2 = some p.1) ∧
  (∀ q ∈ s.windows_, alist_lookup s.handles_ q.2 = some q.1)

instance (s : CoreState) : Decidable (registry_consistent s) := by
  unfold registry_consistent
  infer_instance

/-- C4 counterexample: after `create_window "a"` then
`destroy_window "a"` the handle entry survives while the window is
gone, so the two maps are not consistent and `destroy_window` did not
remove the window's entry from both maps. -/
theorem claim_C4_registry_consistency_cex :
    ¬ registry_consistent
        ((destroy_window (create_window core_init "a" 0).1 "a").1) ∧
    ((destroy_window (create_window core_init "a" 0).1 "a").1).windows_
        = [] ∧
    ((destroy_window (create_window core_init "a" 0).1 "a").1).handles_
        = [(0, "a")] := by
  refine ⟨?_, by decide, by decide⟩
  decide

/-- C4 amended: `create_window` records the handle-to-name entry
(always) and inserts into the name map only when the name is new;
`destroy_window` removes the entry only from the name-to-window map and
leaves the handle map unchanged, as does `destroy_all_windows` — so the
two maps are not kept consistent: after destroying a window its handle
entry persists. -/
theorem claim_C4_registry_amended (s : CoreState) (name : String)
    (flags : Int) :
    ((destroy_window s name).1.handles_ = s.handles_) ∧
    ((destroy_window s name).1.windows_ = alist_erase s.windows_ name) ∧
    ((destroy_all_windows s).handles_ = s.handles_) ∧
    ((destroy_all_windows s).windows_ = []) ∧
    (alist_lookup (create_window s name flags).1.handles_ s.next_id
      = some name) ∧
    (alist_lookup s.windows_ name = none →
      alist_lookup (create_window s name flags).1.windows_ name
        = some s.next_id) := by
  refine ⟨rfl, rfl, rfl, rfl, ?_, ?_⟩
  · show alist_lookup (alist_set s.handles_ s.next_id name) s.next_id
      = some name
    generalize s.handles_ = l
    unfold alist_set
    cases hl : alist_lookup l s.next_id with
    | none =>
      induction l with
      | nil => simp [alist_lookup]
      | cons p rest ih =>
        unfold alist_lookup at hl ⊢
        by_cases hp : p.1 = s.next_id
        · simp [hp] at hl
        · simp only [hp, if_neg] at hl
          simpa [hp] using ih hl
    | some v =>
      induction l with
      | nil => simp [alist_lookup] at hl
      | cons p rest ih =>
        unfold alist_lookup at hl ⊢
        by_cases hp : p.1 = s.next_id
        · simp [hp]
        · simp only [hp, if_neg] at hl
          simpa [hp] using ih hl
  · intro habs
    show alist_lookup (alist_insert s.windows_ name s.next_id).1 name
      = some s.next_id
    unfold alist_insert
    rw [habs]
    generalize s.windows_ = l at habs ⊢
    induction l with
    | nil => simp [alist_lookup]
    | cons p rest ih =>
      unfold alist_lookup at habs ⊢
      by_cases hp : p.1 = name
      · simp [hp] at habs
      · simp only [hp, if_neg] at habs
        simpa [hp] using ih habs

/-- C10: looking up the window name for a never-registered native
handle returns the empty string and inserts a new entry mapping that
handle to the empty string into the handle map, leaving the window map
untouched. -/
theorem claim_C10_get_window_name_inserts (s : CoreState) (h : Nat)
    (habs : alist_lookup s.handles_ h = none) :
    (get_window_name s h).1 = "" ∧
    alist_lookup ((get_window_name s h).2).handles_ h = some "" ∧
    ((get_window_name s h).2).windows_ = s.windows_ ∧
    ((get_window_name s h).2).handles_ = s.handles_ ++ [(h, "")] := by
  refine ⟨?_, ?_, ?_, ?_⟩
  · simp [get_window_name, habs]
  · simp only [get_window_name, habs]
    generalize s.handles_ = l at habs ⊢
    induction l with
    | nil => simp [alist_lookup]
    | cons p rest ih =>
      unfold alist_lookup at habs ⊢
      by_cases hp : p.1 = h
      · simp [hp] at habs
      · simp only [hp, if_neg] at habs
        simpa [hp] using ih habs
  · simp [get_window_name, habs]
  · simp [get_window_name, habs]

/-- C10 witness: handle 5 on a registry holding one window "a". -/
theorem claim_C10_get_window_name_witness :
    (get_window_name ⟨[("a", 0)], [(0, "a")], 1⟩ 5).1 = "" ∧
    alist_lookup ((get_window_name ⟨[("a", 0)], [(0, "a")], 1⟩ 5).2).handles_ 5
      = some "" ∧
    ((get_window_name ⟨[("a", 0)], [(0, "a")], 1⟩ 5).2).windows_
      = [("a", 0)] ∧
    ((get_window_name ⟨[("a", 0)], [(0, "a")], 1⟩ 5).2).handles_
      = [(0, "a")] ++ [(5, "")] :=
  claim_C10_get_window_name_inserts ⟨[("a", 0)], [(0, "a")], 1⟩ 5 (by decide)

/-! ## Mouse (`cv_wl_mouse`)

`entered_window_` is a `std::queue<cv_wl_window *>`: `push` appends at
the back, `front` reads the oldest entry, `pop` removes the oldest
entry.  Windows are represented by their ids. -/

/-- The mouse state: the contents of `entered_window_`, front first. -/
structure MouseState where
  entered_window_ : List Nat

/-- A freshly constructed `cv_wl_mouse`. -/
def mouse_init : MouseState := ⟨[]⟩

/-- `cv_wl_mouse::handle_pointer_enter`: pushes the entered window at
the back of the queue (and fires `mouse_enter` on it). -/
def handle_pointer_enter (m : MouseState) (w : Nat) : MouseState :=
  ⟨m.entered_window_ ++ [w]⟩

/-- `cv_wl_mouse::handle_pointer_leave`: fires `mouse_leave` on the
leaving window, then pops the front of the queue (whichever window that
is). -/
def handle_pointer_leave (m : MouseState) : MouseState :=
  ⟨m.entered_window_.tail⟩

/-- `cv_wl_mouse::handle_pointer_motion`: the window whose
`mouse_motion` is called — `entered_window_.front()`; `none` models the
undefined `front()` on an empty queue. -/
def handle_pointer_motion (m : MouseState) : Option Nat :=
  m.entered_window_.head?

/-- `cv_wl_mouse::handle_pointer_button`: the window whose
`mouse_button` is called — also `entered_window_.front()`. -/
def handle_pointer_button (m : MouseState) : Option Nat :=
  m.entered_window_.head?

/-- C5 counterexample: after enter(A = 0) then enter(B = 1), a motion
event is forwarded to window A (the front of the FIFO queue), not to
the most recently entered window B as claimed. -/
theorem claim_C5_mouse_focus_cex :
    handle_pointer_motion
        (handle_pointer_enter (handle_pointer_enter mouse_init 0) 1)
      = some 0 ∧
    handle_pointer_motion
        (handle_pointer_enter (handle_pointer_enter mouse_init 0) 1)
      ≠ some 1 := by
  decide

/-- C5 amended: the Mouse tracks entered windows in a FIFO queue (new
entries at the back) and forwards motion and button events to the
window at the front — the least recently entered window not yet
removed; so for enter(A), enter(B), motion, the callback fires on
window A. -/
theorem claim_C5_mouse_focus_amended (m : MouseState) (a b : Nat)
    (h : m.entered_window_ = []) :
    (∀ m' w, (handle_pointer_enter m' w).entered_window_
      = m'.entered_window_ ++ [w]) ∧
    (∀ m' : MouseState, handle_pointer_motion m'
      = m'.entered_window_.head?) ∧
    (∀ m' : MouseState, handle_pointer_button m'
      = m'.entered_window_.head?) ∧
    handle_pointer_motion
      (handle_pointer_enter (handle_pointer_enter m a) b) = some a ∧
    handle_pointer_button
      (handle_pointer_enter (handle_pointer_enter m a) b) = some a ∧
    (handle_pointer_leave
      (handle_pointer_enter (handle_pointer_enter m a) b)).entered_window_
      = [b] := by
  refine ⟨fun _ _ => rfl, fun _ => rfl, fun _ => rfl, ?_, ?_, ?_⟩ <;>
    simp [handle_pointer_motion, handle_pointer_button,
      handle_pointer_enter, handle_pointer_leave, h]

/-- C5 amended witness: the empty mouse with windows 0 and 1. -/
theorem claim_C5_mouse_focus_amended_witness :
    (∀ m' w, (handle_pointer_enter m' w).entered_window_
      = m'.entered_window_ ++ [w]) ∧
    (∀ m' : MouseState, handle_pointer_motion m'
      = m'.entered_window_.head?) ∧
    (∀ m' : MouseState, handle_pointer_button m'
      = m'.entered_window_.head?) ∧
    handle_pointer_motion
      (handle_pointer_enter (handle_pointer_enter mouse_init 0) 1)
      = some 0 ∧
    handle_pointer_button
      (handle_pointer_enter (handle_pointer_enter mouse_init 0) 1)
      = some 0 ∧
    (handle_pointer_leave
      (handle_pointer_enter (handle_pointer_enter mouse_init 0) 1)).entered_window_
      = [1] :=
  claim_C5_mouse_focus_amended mouse_init 0 1 rfl

/-! ## Readiness multiplexer (`epoller`) and `cv_wl_display::run_once` -/

/-- `EPOLLIN` (Linux value 0x001). -/
def EPOLLIN : Nat := 0x001

/-- `EPOLLOUT` (Linux value 0x004). -/
def EPOLLOUT : Nat := 0x004

/-- `EPOLLERR` (Linux value 0x008). -/
def EPOLLERR : Nat := 0x008

/-- `EPOLLHUP` (Linux value 0x010). -/
def EPOLLHUP : Nat := 0x010

/-- The default `max_events` of `epoller::wait`. -/
def epoll_max_events : Nat := 16

/-- `epoller::wait` (success path): a vector of `max_events`
value-initialized (zeroed) `epoll_event` slots is allocated and
`epoll_wait` fills the first `event_num` of them with the fired events
(here the environment input `fired`, as event masks); the whole vector
is returned, not resized to `event_num`. -/
def epoller_wait (fired : List Nat) : List Nat :=
  fired.take epoll_max_events ++
    List.replicate (epoll_max_events - (fired.take epoll_max_events).length) 0

/-- C6 counterexample: when the timeout expires with no fired event,
`wait` does not return an empty result — it returns the 16
zero-initialized slots. -/
theorem claim_C6_epoller_wait_cex :
    epoller_wait [] ≠ [] ∧
    epoller_wait [] = List.replicate 16 0 := by
  constructor
  · decide
  · decide

/-- C6 amended: `wait` returns a vector of `max_events` (16) entries
whose leading entries are the events that fired on the tracked
descriptor and whose remaining entries have a zero event mask; when the
timeout expires with no event fired, every entry of the (never empty)
result has event mask zero. -/
theorem claim_C6_epoller_wait_amended (fired : List Nat)
    (h : fired.length ≤ epoll_max_events) :
    (epoller_wait fired).length = epoll_max_events ∧
    (epoller_wait fired).take fired.length = fired ∧
    (fired = [] → ∀ e ∈ epoller_wait fired, e = 0) := by
  have htake : fired.take epoll_max_events = fired := List.take_of_length_le h
  refine ⟨?_, ?_, ?_⟩
  · simp [epoller_wait, htake]
    omega
  · simp [epoller_wait, htake, List.take_append_of_le_length (Nat.le_refl _)]
  · intro hf e he
    rw [hf] at he
    simp [epoller_wait] at he
    exact he.2

/-- C6 amended witness: one fired readable event, and the timeout case. -/
theorem claim_C6_epoller_wait_amended_witness :
    ((epoller_wait [EPOLLIN]).length = epoll_max_events ∧
      (epoller_wait [EPOLLIN]).take 1 = [EPOLLIN] ∧
      ([EPOLLIN] = [] → ∀ e ∈ epoller_wait [EPOLLIN], e = 0)) ∧
    ((epoller_wait []).length = epoll_max_events ∧
      (epoller_wait []).take 0 = [] ∧
      (([] : List Nat) = [] → ∀ e ∈ epoller_wait [], e = 0)) :=
  ⟨by
      have h := claim_C6_epoller_wait_amended [EPOLLIN] (by decide)
      exact ⟨h.1, h.2.1, h.2.2⟩,
    by
      have h := claim_C6_epoller_wait_amended [] (by decide)
      exact ⟨h.1, h.2.1, h.2.2⟩⟩

/-- The result of `wl_display_flush`: the return value and whether
`errno` was `EAGAIN` when negative. -/
structure FlushOutcome where
  ret : Int
  eagain : Bool

/-- The observable behaviour of one `cv_wl_display::run_once` call:
its return value, whether the blocking `poller_.wait` was reached, the
registration in force when the wait is entered, the registration after
the call, and whether incoming events were dispatched. -/
structure RunOnceTrace where
  result : Nat
  waited : Bool
  interest_at_wait : Nat
  interest_final : Nat
  dispatched : Bool

/-- The part of `run_once` from the wait on: `events[0].events` is the
`wait_mask` input (0 on timeout — the vector is never empty, so the
`events.empty()` early return never fires); on a readable bit the
pending messages are dispatched; on a writable bit `flush` is retried
and, when it returns 0, the registration drops the writable bit. -/
def run_once_after_wait (interest : Nat) (wait_mask : Nat)
    (flush2_ret : Int) : RunOnceTrace :=
  { result := wait_mask,
    waited := true,
    interest_at_wait := interest,
    interest_final :=
      if wait_mask &&& EPOLLOUT ≠ 0 ∧ flush2_ret = 0 then
        EPOLLIN ||| EPOLLERR ||| EPOLLHUP
      else interest,
    dispatched := wait_mask &&& EPOLLIN != 0 }

/-- `cv_wl_display::run_once`: dispatch pending messages, then flush;
when the flush fails with `EAGAIN` the registration is modified to
readable-and-writable and the wait proceeds; when it fails otherwise
the call returns 0 immediately; otherwise the wait proceeds with the
registration unchanged. -/
def run_once (interest : Nat) (flush1 : FlushOutcome) (wait_mask : Nat)
    (flush2_ret : Int) : RunOnceTrace :=
  if flush1.ret < 0 ∧ flush1.eagain = true then
    run_once_after_wait (EPOLLIN ||| EPOLLOUT ||| EPOLLERR ||| EPOLLHUP)
      wait_mask flush2_ret
  else if flush1.ret < 0 then
    { result := 0, waited := false, interest_at_wait := interest,
      interest_final := interest, dispatched := false }
  else
    run_once_after_wait interest wait_mask flush2_ret

/-- C7: when the flush fails because it would block (`EAGAIN`),
writable interest is added to the registration and the blocking wait
proceeds; when the flush fails for any other reason, `run_once`
returns 0 immediately without performing the wait. -/
theorem claim_C7_run_once_flush_errors (interest : Nat)
    (flush1 : FlushOutcome) (wait_mask : Nat) (flush2_ret : Int) :
    (flush1.ret < 0 → flush1.eagain = true →
      (run_once interest flush1 wait_mask flush2_ret).waited = true ∧
      (run_once interest flush1 wait_mask flush2_ret).interest_at_wait
          &&& EPOLLOUT ≠ 0) ∧
    (flush1.ret < 0 → flush1.eagain = false →
      (run_once interest flush1 wait_mask flush2_ret).result = 0 ∧
      (run_once interest flush1 wait_mask flush2_ret).waited = false ∧
      (run_once interest flush1 wait_mask flush2_ret).interest_final
        = interest) := by
  constructor
  · intro h1 h2
    refine ⟨?_, ?_⟩ <;>
      simp [run_once, h1, h2, run_once_after_wait, EPOLLIN, EPOLLOUT,
        EPOLLERR, EPOLLHUP]
  · intro h1 h2
    have hne : ¬ (flush1.ret < 0 ∧ flush1.eagain = true) := by
      simp [h2]
    refine ⟨?_, ?_, ?_⟩ <;> simp [run_once, hne, h1, h2]

/-- C7 witness: a flush that would block, and a flush failing with a
non-EAGAIN error, both with the steady read-only registration. -/
theorem claim_C7_run_once_flush_errors_witness :
    (((-1 : Int) < 0 ∧ true = true) ∧
      (run_once (EPOLLIN ||| EPOLLERR ||| EPOLLHUP) ⟨-1, true⟩ 0 0).waited
        = true ∧
      (run_once (EPOLLIN ||| EPOLLERR ||| EPOLLHUP)
          ⟨-1, true⟩ 0 0).interest_at_wait &&& EPOLLOUT ≠ 0) ∧
    (((-1 : Int) < 0 ∧ false = false) ∧
      (run_once (EPOLLIN ||| EPOLLERR ||| EPOLLHUP) ⟨-1, false⟩ 0 0).result
        = 0 ∧
      (run_once (EPOLLIN ||| EPOLLERR ||| EPOLLHUP) ⟨-1, false⟩ 0 0).waited
        = false ∧
      (run_once (EPOLLIN ||| EPOLLERR ||| EPOLLHUP)
          ⟨-1, false⟩ 0 0).interest_final
        = EPOLLIN ||| EPOLLERR ||| EPOLLHUP) :=
  ⟨⟨⟨by decide, rfl⟩,
    (claim_C7_run_once_flush_errors (EPOLLIN ||| EPOLLERR ||| EPOLLHUP)
      ⟨-1, true⟩ 0 0).1 (by decide) rfl⟩,
   ⟨⟨by decide, rfl⟩,
    (claim_C7_run_once_flush_errors (EPOLLIN ||| EPOLLERR ||| EPOLLHUP)
      ⟨-1, false⟩ 0 0).2 (by decide) rfl⟩⟩

/-! ## `cvWaitKey` -/

/-- The timeout `epoll_wait` treats as "do not block". -/
def epoll_timeout_no_block : Int := 0

/-- The timeout `epoll_wait` treats as "block indefinitely". -/
def epoll_timeout_indefinite : Int := -1

/-- The timeout `cvWaitKey` hands to `run_once` each iteration:
`delay > 0 ? delay : -1`. -/
def cvWaitKey_timeout_arg (delay : Int) : Int :=
  if delay > 0 then delay else -1

/-- One iteration of the `cvWaitKey` loop, given the events mask
returned by `run_once` and the key `get_key` would return: the loop
breaks (with that key) only when the readable bit fired and the key is
non-negative. -/
def cvWaitKey_step (events : Nat) (polled_key : Int) : Option Int :=
  if events &&& EPOLLIN ≠ 0 then
    (if polled_key ≥ 0 then some polled_key else none)
  else none

/-- The `cvWaitKey` loop over a finite trace of iterations (the loop
itself has no other exit and runs forever on an infinite never-breaking
trace). -/
def cvWaitKey_loop : List (Nat × Int) → Option Int
  | [] => none
  | (e, k) :: rest =>
    match cvWaitKey_step e k with
    | some key => some key
    | none => cvWaitKey_loop rest

/-- C9 counterexample: the claim says a negative timeout yields
no-block semantics for each blocking step, but `cvWaitKey (-5)` hands
`run_once` the indefinite-block timeout -1, not the no-block timeout
0. -/
theorem claim_C9_waitkey_timeout_cex :
    cvWaitKey_timeout_arg (-5) = epoll_timeout_indefinite ∧
    cvWaitKey_timeout_arg (-5) ≠ epoll_timeout_no_block := by
  decide

/-- C9 amended: the wait-for-key entry point returns a key code (≥ 0)
whenever it returns; within its loop every non-positive timeout — zero
or negative — yields indefinite-block semantics for each single
blocking step, and a positive timeout bounds each step by that many
milliseconds. -/
theorem claim_C9_waitkey_timeout_amended (delay : Int)
    (trace : List (Nat × Int)) (r : Int) :
    (delay ≤ 0 → cvWaitKey_timeout_arg delay = epoll_timeout_indefinite) ∧
    (0 < delay → cvWaitKey_timeout_arg delay = delay) ∧
    (cvWaitKey_loop trace = some r → 0 ≤ r) := by
  refine ⟨?_, ?_, ?_⟩
  · intro h
    simp only [cvWaitKey_timeout_arg, epoll_timeout_indefinite]
    rw [if_neg (by omega)]
  · intro h
    simp [cvWaitKey_timeout_arg, h]
  · induction trace with
    | nil => intro h; simp [cvWaitKey_loop] at h
    | cons p rest ih =>
      intro h
      rw [cvWaitKey_loop] at h
      cases hs : cvWaitKey_step p.1 p.2 with
      | none =>
        rw [hs] at h
        exact ih h
      | some key =>
        rw [hs] at h
        cases h
        unfold cvWaitKey_step at hs
        by_cases he : p.1 &&& EPOLLIN ≠ 0
        · rw [if_pos he] at hs
          by_cases hk : p.2 ≥ 0
          · rw [if_pos hk] at hs
            cases hs
            exact hk
          · rw [if_neg hk] at hs
            cases hs
        · rw [if_neg he] at hs
          cases hs

/-- C9 amended witness: delay -5 (indefinite), delay 7 (bounded), and
a trace whose first iteration sees a readable event and key 33. -/
theorem claim_C9_waitkey_timeout_amended_witness :
    ((-5 : Int) ≤ 0 ∧ cvWaitKey_timeout_arg (-5) = epoll_timeout_indefinite) ∧
    ((0 : Int) < 7 ∧ cvWaitKey_timeout_arg 7 = 7) ∧
    (cvWaitKey_loop [(EPOLLIN, 33)] = some 33 ∧ (0 : Int) ≤ 33) :=
  ⟨⟨by decide,
    (claim_C9_waitkey_timeout_amended (-5) [] 0).1 (by decide)⟩,
   ⟨by decide,
    (claim_C9_waitkey_timeout_amended 7 [] 0).2.1 (by decide)⟩,
   ⟨by decide,
    (claim_C9_waitkey_timeout_amended 0 [(EPOLLIN, 33)] 33).2.2 (by decide)⟩⟩

end WlHighgui
